import Mathlib

/-!
# Valentines-Week greeting service — verification of the CRUD contract

Shallow embedding of the two serverless API handlers (`src/api/create.js`,
`src/api/get.js`) and the frontend loader's initialisation logic
(`src/js/dynamic-loader.js`), together with proofs of the specification's
testable properties.

Modelling conventions:
* JavaScript strings are Lean `String`s; `String.prototype.length` (UTF-16
  code units) is `jsLength`, `String.prototype.trim` is `jsTrim`.
* A possibly-absent request field is an `Option String`; the JS truthiness
  test `!x` on such a field is `strFalsy` (`undefined`/`null` and `""` are
  falsy).
* The Supabase `greetings` table is a list of rows; `insert` appends,
  `select ... eq('id', id) ... single()` is a first-match lookup.  The
  store-failure (HTTP 500) paths are outside the modelled claims: the store
  operation itself is assumed to succeed.
* Handlers are pure functions from (store, request) to (response, store).
-/

namespace Valentines

/-! ## JavaScript string primitives -/

/-- The ECMAScript WhiteSpace and LineTerminator code points removed by
`String.prototype.trim`: TAB, LF, VT, FF, CR, SPACE, NBSP, Ogham space mark,
the Zs range U+2000–U+200A, LS, PS, NNBSP, MMSP, ideographic space, BOM. -/
def isJsWhitespace (c : Char) : Bool :=
  let n := c.toNat
  n == 9 || n == 10 || n == 11 || n == 12 || n == 13 || n == 32 ||
  n == 0xa0 || n == 0x1680 || (decide (0x2000 ≤ n) && decide (n ≤ 0x200a)) ||
  n == 0x2028 || n == 0x2029 || n == 0x202f || n == 0x205f || n == 0x3000 ||
  n == 0xfeff

/-- Drop elements satisfying `p` from both ends of a list. -/
def trimWith (p : α → Bool) (l : List α) : List α :=
  ((l.dropWhile p).reverse.dropWhile p).reverse

/-- JS `String.prototype.trim`: remove leading and trailing whitespace. -/
def jsTrim (s : String) : String :=
  String.mk (trimWith isJsWhitespace s.data)

/-- JS `String.prototype.length`: the number of UTF-16 code units (code
points at or above U+10000 count twice). -/
def jsLength (s : String) : Nat :=
  s.data.foldl (fun n c => n + (if c.toNat < 0x10000 then 1 else 2)) 0

/-- JS truthiness test `!x` for a possibly-absent string field:
`undefined`/`null` and the empty string are falsy. -/
def strFalsy : Option String → Bool
  | none => true
  | some s => s == ""

/-- JS `x || d` for a possibly-absent string: yields `d` when `x` is
absent or empty. -/
def jsOrDefault (o : Option String) (d : String) : String :=
  if strFalsy o then d else o.getD ""

/-! ## Data model

`supabase-setup.sql` plus the columns the handlers read and write: the
`greetings` table keyed by `id`, with `sender`, `receiver`, `message`,
`day_index` and a server-assigned `created_at` (modelled as an abstract
clock value). -/

structure GreetingRow where
  id : String
  sender : String
  receiver : String
  message : String
  day_index : Int
  created_at : Nat
deriving Repr, DecidableEq

/-- The persistence store: the rows of the `greetings` table, in insertion
order. -/
abbrev Store := List GreetingRow

/-- `select ... .eq('id', i) ... .single()`: the first row keyed `i`.
`id` is the primary key, so at most one row matches. -/
def storeLookup (store : Store) (i : String) : Option GreetingRow :=
  store.find? (fun row => row.id == i)

/-! ## The create handler (`src/api/create.js`) -/

def MAX_NAME_LENGTH : Nat := 100
def MAX_MESSAGE_LENGTH : Nat := 500
def ID_LENGTH : Nat := 8

/-- The JSON body of a create request; every field may be absent. -/
structure CreateBody where
  sender : Option String
  receiver : Option String
  message : Option String
  day_index : Option Int
deriving Repr, DecidableEq

/-- A create request: HTTP method, parsed body, and the headers the handler
reads (`host`, `x-forwarded-proto`). -/
structure CreateReq where
  method : String
  body : CreateBody
  host : String
  xForwardedProto : Option String
deriving Repr, DecidableEq

/-- The create handler's response: HTTP status, the `error` code of a
failure payload, and the `id`/`url` of a success payload. -/
structure CreateResp where
  status : Nat
  error : Option String
  id : Option String
  url : Option String
deriving Repr, DecidableEq

/-- `src/api/create.js` `handler`, as a function of the store, the request,
the identifier produced by the generator, and the server clock.  Returns the
response and the store after the request. -/
def createHandler (store : Store) (req : CreateReq) (freshId : String)
    (now : Nat) : CreateResp × Store :=
  if req.method ≠ "POST" then
    ({ status := 405, error := some "Method not allowed", id := none, url := none }, store)
  else if strFalsy req.body.sender || strFalsy req.body.receiver then
    ({ status := 400, error := some "Missing required fields", id := none, url := none }, store)
  else
    let sender := req.body.sender.getD ""
    let receiver := req.body.receiver.getD ""
    if jsLength sender > MAX_NAME_LENGTH then
      ({ status := 400, error := some "Validation error", id := none, url := none }, store)
    else if jsLength receiver > MAX_NAME_LENGTH then
      ({ status := 400, error := some "Validation error", id := none, url := none }, store)
    else if strFalsy req.body.message = false ∧
        jsLength (req.body.message.getD "") > MAX_MESSAGE_LENGTH then
      ({ status := 400, error := some "Validation error", id := none, url := none }, store)
    else
      let row : GreetingRow :=
        { id := freshId
          sender := jsTrim sender
          receiver := jsTrim receiver
          message := if strFalsy req.body.message then ""
                     else jsTrim (req.body.message.getD "")
          day_index := req.body.day_index.getD 0
          created_at := now }
      ({ status := 201, error := none, id := some freshId,
         url := some (jsOrDefault req.xForwardedProto "https" ++ "://" ++
                      req.host ++ "/?id=" ++ freshId) },
       store ++ [row])

/-! ## The get handler (`src/api/get.js`) -/

/-- A get request: HTTP method and the `id` query parameter. -/
structure GetReq where
  method : String
  id : Option String
deriving Repr, DecidableEq

/-- The columns returned by the get handler's select. -/
structure GetData where
  sender : String
  receiver : String
  message : String
  day_index : Int
  created_at : Nat
deriving Repr, DecidableEq

/-- The get handler's response: HTTP status, the `error` code of a failure
payload, and the row data of a success payload. -/
structure GetResp where
  status : Nat
  error : Option String
  data : Option GetData
deriving Repr, DecidableEq

/-- One character of the identifier sanitisation pattern `[a-zA-Z0-9_-]`. -/
def isIdChar (c : Char) : Bool :=
  (decide ('a' ≤ c) && decide (c ≤ 'z')) ||
  (decide ('A' ≤ c) && decide (c ≤ 'Z')) ||
  (decide ('0' ≤ c) && decide (c ≤ '9')) ||
  c == '_' || c == '-'

/-- The test `/^[a-zA-Z0-9_-]+$/.test(id)`: nonempty, every character in
the allowed set. -/
def idPattern (s : String) : Bool :=
  !s.data.isEmpty && s.data.all isIdChar

/-- `src/api/get.js` `handler`, as a function of the store and the
request.  Read-only: it returns no store. -/
def getHandler (store : Store) (req : GetReq) : GetResp :=
  if req.method ≠ "GET" then
    { status := 405, error := some "Method not allowed", data := none }
  else if strFalsy req.id then
    { status := 400, error := some "Missing ID", data := none }
  else
    let i := req.id.getD ""
    if idPattern i = false then
      { status := 400, error := some "Invalid ID", data := none }
    else
      match storeLookup store i with
      | none => { status := 404, error := some "Not found", data := none }
      | some row =>
          { status := 200, error := none,
            data := some { sender := row.sender, receiver := row.receiver,
                           message := row.message, day_index := row.day_index,
                           created_at := row.created_at } }

/-! ## The identifier generator and the system state -/

/-- Modelled from the spec: the identifier generator.  The implementation
calls `nanoid(8)` from the external `nanoid` npm package, whose code is not
part of this repository; the spec says create "generates a short random
identifier (collision probability assumed negligible; no explicit collision
retry)".  We realise the negligible-collision assumption as a deterministic
fresh-identifier supply indexed by a call counter, drawing from nanoid's
url-safe alphabet and distinct across calls. -/
def nanoid (calls : Nat) : String :=
  String.mk (List.replicate (calls + 1) 'a')

/-- The server-side state a request sees: the store, the number of
identifier-generator invocations so far, and an abstract clock supplying
`created_at` values. -/
structure SysState where
  store : Store
  calls : Nat
  clock : Nat
deriving Repr, DecidableEq

/-- One create request processed against the system state. -/
def createOp (st : SysState) (req : CreateReq) : CreateResp × SysState :=
  let fresh := nanoid st.calls
  let out := createHandler st.store req fresh st.clock
  (out.1, { store := out.2, calls := st.calls + 1, clock := st.clock + 1 })

/-! ## The frontend loader (`src/js/dynamic-loader.js`) -/

/-- The outcome of the `fetch` of `/api/get?id=...`: a 2xx response with a
parsed body, a 404, another non-ok status, or a thrown network error. -/
inductive FetchOutcome where
  | ok (d : GetData)
  | notFound
  | httpError (status : Nat)
  | networkError
deriving Repr, DecidableEq

/-- `fetchGreeting`: returns the parsed data on a 2xx response and `null`
on a 404 (warn, use defaults) or on any thrown error (non-ok status,
network failure). -/
def fetchGreeting : FetchOutcome → Option GetData
  | .ok d => some d
  | .notFound => none
  | .httpError _ => none
  | .networkError => none

/-- What `init` leaves on screen: whether the creation form is visible, and
the greeting data substituted into the page, if any. -/
structure LoaderView where
  formVisible : Bool
  populated : Option GetData
deriving Repr, DecidableEq

/-- `init` in `src/js/dynamic-loader.js`: with a truthy `id` URL parameter
it hides the creation form and fetches the greeting, populating the page
only when the fetch yields data; with no (or an empty) `id` parameter it
shows the creation form. -/
def loaderInit (idParam : Option String) (outcome : FetchOutcome) : LoaderView :=
  if strFalsy idParam then
    { formVisible := true, populated := none }
  else
    match fetchGreeting outcome with
    | some d => { formVisible := false, populated := some d }
    | none => { formVisible := false, populated := none }

/-! ## Concrete fixtures

Closed inputs used to exercise the theorems below on concrete runs. -/

/-- A fresh server state: empty store, no generator calls, clock at 0. -/
def stw : SysState := { store := [], calls := 0, clock := 0 }

/-- A valid create request whose sender has a trailing space. -/
def reqTrail : CreateReq :=
  { method := "POST",
    body := { sender := some "Al ", receiver := some "Bea",
              message := some "hi", day_index := none },
    host := "h", xForwardedProto := none }

/-- A create request whose sender is a single space: accepted by the
validation, stored as the empty string. -/
def reqBlank : CreateReq :=
  { method := "POST",
    body := { sender := some " ", receiver := some "B",
              message := none, day_index := none },
    host := "h", xForwardedProto := none }

/-- A minimal valid create request with no message and no day index. -/
def reqNames : CreateReq :=
  { method := "POST",
    body := { sender := some "A", receiver := some "B",
              message := none, day_index := none },
    host := "h", xForwardedProto := none }

/-- A create request with no sender field at all. -/
def reqNoSender : CreateReq :=
  { method := "POST",
    body := { sender := none, receiver := some "B",
              message := none, day_index := none },
    host := "h", xForwardedProto := none }

/-- A 500-character message. -/
def msg500 : String := String.mk (List.replicate 500 'x')

/-- A 501-character message. -/
def msg501 : String := String.mk (List.replicate 501 'x')

/-- A valid create request carrying the 500-character message. -/
def req500 : CreateReq :=
  { method := "POST",
    body := { sender := some "A", receiver := some "B",
              message := some msg500, day_index := none },
    host := "h", xForwardedProto := none }

/-- A create request carrying the 501-character message. -/
def req501 : CreateReq :=
  { method := "POST",
    body := { sender := some "A", receiver := some "B",
              message := some msg501, day_index := none },
    host := "h", xForwardedProto := none }

/-- A create request sent with the wrong HTTP method. -/
def creqWrong : CreateReq :=
  { method := "GET",
    body := { sender := some "A", receiver := some "B",
              message := none, day_index := none },
    host := "h", xForwardedProto := none }

/-- A get request sent with the wrong HTTP method. -/
def greqWrong : GetReq := { method := "POST", id := some "abc" }

/-- A stored greeting row used to exercise the get handler. -/
def rowW : GreetingRow :=
  { id := "abc", sender := "A", receiver := "B", message := "hi",
    day_index := 0, created_at := 0 }

/-! ## Supporting lemmas -/

theorem dropWhile_dropWhile (p : α → Bool) (l : List α) :
    (l.dropWhile p).dropWhile p = l.dropWhile p := by
  induction l with
  | nil => rfl
  | cons a l ih =>
    rw [List.dropWhile_cons]
    by_cases h : p a
    · rw [if_pos h]; exact ih
    · rw [if_neg h, List.dropWhile_cons, if_neg h]

theorem head?_dropWhile_false {p : α → Bool} {l : List α} {x : α}
    (h : (l.dropWhile p).head? = some x) : p x = false := by
  have hh := List.head?_dropWhile_not p l
  rw [h] at hh
  exact hh

theorem dropWhile_eq_self_of_head? {p : α → Bool} {l : List α}
    (h : ∀ x, l.head? = some x → p x = false) : l.dropWhile p = l := by
  cases l with
  | nil => rfl
  | cons a l => rw [List.dropWhile_cons, if_neg (by simp [h a rfl])]

theorem getLast?_of_suffix {l m : List α} (h : l <:+ m) {x : α}
    (hx : l.getLast? = some x) : m.getLast? = some x := by
  obtain ⟨d, rfl⟩ := h
  rw [List.getLast?_append, hx]
  rfl

theorem trimWith_idem (p : α → Bool) (l : List α) :
    trimWith p (trimWith p l) = trimWith p l := by
  unfold trimWith
  have hstep : ((l.dropWhile p).reverse.dropWhile p).reverse.dropWhile p
      = ((l.dropWhile p).reverse.dropWhile p).reverse := by
    apply dropWhile_eq_self_of_head?
    intro x hx
    rw [List.head?_reverse] at hx
    have hsuf : (l.dropWhile p).reverse.dropWhile p <:+ (l.dropWhile p).reverse :=
      List.dropWhile_suffix p
    have hlast : (l.dropWhile p).reverse.getLast? = some x := getLast?_of_suffix hsuf hx
    rw [List.getLast?_reverse] at hlast
    exact head?_dropWhile_false hlast
  rw [hstep, List.reverse_reverse, dropWhile_dropWhile]

theorem trimWith_ne_nil {p : α → Bool} {l : List α} {c : α}
    (hc : c ∈ l) (hpc : p c = false) : trimWith p l ≠ [] := by
  intro h
  unfold trimWith at h
  rw [List.reverse_eq_nil_iff, List.dropWhile_eq_nil_iff] at h
  have hcl : c ∈ l.takeWhile p ∨ c ∈ l.dropWhile p := by
    rw [← List.mem_append, List.takeWhile_append_dropWhile]
    exact hc
  cases hcl with
  | inl hin => exact absurd (List.mem_takeWhile_imp hin) (by simp [hpc])
  | inr hin => exact absurd (h c (by simp [hin])) (by simp [hpc])

theorem jsTrim_idem (s : String) : jsTrim (jsTrim s) = jsTrim s :=
  congrArg String.mk (trimWith_idem isJsWhitespace s.data)

theorem jsTrim_ne_empty {s : String} {c : Char} (hc : c ∈ s.data)
    (hw : isJsWhitespace c = false) : jsTrim s ≠ "" := by
  intro h
  have hdata : trimWith isJsWhitespace s.data = [] := congrArg String.data h
  exact trimWith_ne_nil hc hw hdata

theorem nanoid_length (n : Nat) : (nanoid n).length = n + 1 := by
  rw [nanoid, String.length_mk, List.length_replicate]

theorem nanoid_ne {m n : Nat} (h : m ≠ n) : nanoid m ≠ nanoid n := by
  intro he
  have hlen := congrArg String.length he
  rw [nanoid_length, nanoid_length] at hlen
  omega

theorem nanoid_ne_empty (n : Nat) : nanoid n ≠ "" := by
  intro h
  have hlen := congrArg String.length h
  rw [nanoid_length] at hlen
  have h0 : ("" : String).length = 0 := rfl
  omega

theorem idPattern_nanoid (n : Nat) : idPattern (nanoid n) = true := by
  have h1 : (List.replicate (n + 1) 'a').isEmpty = false := by
    rw [List.replicate_succ]; rfl
  have h2 : (List.replicate (n + 1) 'a').all isIdChar = true := by
    rw [List.all_eq_true]
    intro x hx
    rw [List.eq_of_mem_replicate hx]
    decide
  show (!(List.replicate (n + 1) 'a').isEmpty && (List.replicate (n + 1) 'a').all isIdChar) = true
  rw [h1, h2]
  rfl

theorem storeLookup_eq_none {store : Store} {i : String}
    (h : ∀ r ∈ store, r.id ≠ i) : storeLookup store i = none := by
  unfold storeLookup
  rw [List.find?_eq_none]
  intro x hx
  simp only [beq_iff_eq]
  exact h x hx

theorem storeLookup_append_fresh (store : Store) (row : GreetingRow)
    (h : ∀ r ∈ store, r.id ≠ row.id) :
    storeLookup (store ++ [row]) row.id = some row := by
  unfold storeLookup
  rw [List.find?_append]
  have h1 : store.find? (fun r => r.id == row.id) = none := storeLookup_eq_none h
  rw [h1]
  simp [List.find?_cons]


theorem createOp_success_inversion (st : SysState) (req : CreateReq)
    (h : (createOp st req).1.status = 201) :
    req.method = "POST" ∧
    strFalsy req.body.sender = false ∧ strFalsy req.body.receiver = false ∧
    (createOp st req).1 =
      { status := 201, error := none, id := some (nanoid st.calls),
        url := some (jsOrDefault req.xForwardedProto "https" ++ "://" ++
                     req.host ++ "/?id=" ++ nanoid st.calls) } ∧
    (createOp st req).2.store = st.store ++
      [{ id := nanoid st.calls,
         sender := jsTrim (req.body.sender.getD ""),
         receiver := jsTrim (req.body.receiver.getD ""),
         message := if strFalsy req.body.message then ""
                    else jsTrim (req.body.message.getD ""),
         day_index := req.body.day_index.getD 0,
         created_at := st.clock }] := by
  by_cases h1 : req.method = "POST"
  · by_cases h2 : strFalsy req.body.sender = true
    · simp [createOp, createHandler, h1, h2] at h
    · by_cases h3 : strFalsy req.body.receiver = true
      · simp [createOp, createHandler, h1, h2, h3] at h
      · by_cases h4 : jsLength (req.body.sender.getD "") > MAX_NAME_LENGTH
        · simp [createOp, createHandler, h1, h2, h3, h4] at h
        · by_cases h5 : jsLength (req.body.receiver.getD "") > MAX_NAME_LENGTH
          · simp [createOp, createHandler, h1, h2, h3, h4, h5] at h
          · by_cases h6 : strFalsy req.body.message = false ∧
                jsLength (req.body.message.getD "") > MAX_MESSAGE_LENGTH
            · simp [createOp, createHandler, h1, h2, h3, h4, h5, h6] at h
            · simp [createOp, createHandler, h1, h2, h3, h4, h5, h6]
  · simp [createOp, createHandler, h1] at h

theorem createOp_id_some {st : SysState} {req : CreateReq} {i : String}
    (h : (createOp st req).1.id = some i) :
    i = nanoid st.calls ∧ (createOp st req).1.status = 201 := by
  by_cases h1 : req.method = "POST"
  · by_cases h2 : strFalsy req.body.sender = true
    · simp [createOp, createHandler, h1, h2] at h
    · by_cases h3 : strFalsy req.body.receiver = true
      · simp [createOp, createHandler, h1, h2, h3] at h
      · by_cases h4 : jsLength (req.body.sender.getD "") > MAX_NAME_LENGTH
        · simp [createOp, createHandler, h1, h2, h3, h4] at h
        · by_cases h5 : jsLength (req.body.receiver.getD "") > MAX_NAME_LENGTH
          · simp [createOp, createHandler, h1, h2, h3, h4, h5] at h
          · by_cases h6 : strFalsy req.body.message = false ∧
                jsLength (req.body.message.getD "") > MAX_MESSAGE_LENGTH
            · simp [createOp, createHandler, h1, h2, h3, h4, h5, h6] at h
            · have hid : (createOp st req).1.id = some (nanoid st.calls) := by
                simp [createOp, createHandler, h1, h2, h3, h4, h5, h6]
              rw [hid] at h
              refine ⟨(Option.some.inj h).symm, ?_⟩
              simp [createOp, createHandler, h1, h2, h3, h4, h5, h6]
  · simp [createOp, createHandler, h1] at h


theorem idPattern_ne_empty {i : String} (h : idPattern i = true) : i ≠ "" := by
  intro he
  subst he
  exact absurd h (by decide)

theorem createOp_valid (st : SysState) (req : CreateReq) (s r : String)
    (hm : req.method = "POST") (hs : req.body.sender = some s)
    (hr : req.body.receiver = some r) (hsne : s ≠ "") (hrne : r ≠ "")
    (hslen : jsLength s ≤ MAX_NAME_LENGTH) (hrlen : jsLength r ≤ MAX_NAME_LENGTH)
    (hmlen : jsLength (req.body.message.getD "") ≤ MAX_MESSAGE_LENGTH) :
    createOp st req =
      ({ status := 201, error := none, id := some (nanoid st.calls),
         url := some (jsOrDefault req.xForwardedProto "https" ++ "://" ++
                      req.host ++ "/?id=" ++ nanoid st.calls) },
       { store := st.store ++
           [{ id := nanoid st.calls, sender := jsTrim s, receiver := jsTrim r,
              message := if strFalsy req.body.message then ""
                         else jsTrim (req.body.message.getD ""),
              day_index := req.body.day_index.getD 0, created_at := st.clock }],
         calls := st.calls + 1, clock := st.clock + 1 }) := by
  have h2 : strFalsy req.body.sender = false := by rw [hs]; simp [strFalsy, hsne]
  have h3 : strFalsy req.body.receiver = false := by rw [hr]; simp [strFalsy, hrne]
  have h4 : ¬ jsLength (req.body.sender.getD "") > MAX_NAME_LENGTH := by
    rw [hs]; simp only [Option.getD_some, gt_iff_lt, Nat.not_lt]; exact hslen
  have h5 : ¬ jsLength (req.body.receiver.getD "") > MAX_NAME_LENGTH := by
    rw [hr]; simp only [Option.getD_some, gt_iff_lt, Nat.not_lt]; exact hrlen
  have h6 : ¬ (strFalsy req.body.message = false ∧
      jsLength (req.body.message.getD "") > MAX_MESSAGE_LENGTH) := by
    intro hc
    exact absurd hc.2 (by simp only [gt_iff_lt, Nat.not_lt]; exact hmlen)
  have h2s : strFalsy (some s) = false := by simp [strFalsy, hsne]
  have h3s : strFalsy (some r) = false := by simp [strFalsy, hrne]
  have h4s : ¬ MAX_NAME_LENGTH < jsLength s := Nat.not_lt.mpr hslen
  have h5s : ¬ MAX_NAME_LENGTH < jsLength r := Nat.not_lt.mpr hrlen
  simp [createOp, createHandler, hm, hs, hr, h2, h3, h4, h5, h6, h2s, h3s, h4s, h5s]

theorem getHandler_found {store : Store} {i : String} {row : GreetingRow}
    (hwf : idPattern i = true) (hlook : storeLookup store i = some row) :
    getHandler store { method := "GET", id := some i } =
      { status := 200, error := none,
        data := some { sender := row.sender, receiver := row.receiver,
                       message := row.message, day_index := row.day_index,
                       created_at := row.created_at } } := by
  have hne := idPattern_ne_empty hwf
  simp [getHandler, strFalsy, hne, hwf, hlook]

theorem getHandler_not_found {store : Store} {i : String}
    (hwf : idPattern i = true) (hlook : storeLookup store i = none) :
    getHandler store { method := "GET", id := some i } =
      { status := 404, error := some "Not found", data := none } := by
  have hne := idPattern_ne_empty hwf
  simp [getHandler, strFalsy, hne, hwf, hlook]

theorem jsLength_replicate_aux (c : Char) (h : c.toNat < 0x10000) (n acc : Nat) :
    (List.replicate n c).foldl
      (fun m d => m + (if d.toNat < 0x10000 then 1 else 2)) acc = acc + n := by
  induction n generalizing acc with
  | zero => simp
  | succ k ih =>
    rw [List.replicate_succ, List.foldl_cons, if_pos h, ih]
    omega

theorem jsLength_replicate (n : Nat) (c : Char) (h : c.toNat < 0x10000) :
    jsLength (String.mk (List.replicate n c)) = n := by
  show (List.replicate n c).foldl
    (fun m d => m + (if d.toNat < 0x10000 then 1 else 2)) 0 = n
  rw [jsLength_replicate_aux c h n 0]
  omega

/-! ## The claims -/

/-- C3: For every create request whose body has sender absent or equal to
the empty string, or receiver absent or equal to the empty string, the
create operation returns status 400 and performs no store insertion. -/
theorem create_missing_fields_400 (st : SysState) (req : CreateReq)
    (hm : req.method = "POST")
    (h : strFalsy req.body.sender = true ∨ strFalsy req.body.receiver = true) :
    (createOp st req).1.status = 400 ∧ (createOp st req).2.store = st.store := by
  cases h with
  | inl h2 => simp [createOp, createHandler, hm, h2]
  | inr h2 => simp [createOp, createHandler, hm, h2]

theorem create_missing_fields_400_witness :
    strFalsy reqNoSender.body.sender = true ∧
    (createOp stw reqNoSender).1.status = 400 ∧
    (createOp stw reqNoSender).2.store = stw.store :=
  ⟨rfl, create_missing_fields_400 stw reqNoSender rfl (Or.inl rfl)⟩

/-- C4: For every create request with valid sender and receiver, a supplied
message of length 501 is rejected with status 400 (and nothing is stored),
while a message of length exactly 500 is accepted with status 201. -/
theorem create_message_length_boundary (st : SysState) (req : CreateReq)
    (s r m : String)
    (hm : req.method = "POST") (hs : req.body.sender = some s)
    (hr : req.body.receiver = some r) (hsne : s ≠ "") (hrne : r ≠ "")
    (hslen : jsLength s ≤ MAX_NAME_LENGTH) (hrlen : jsLength r ≤ MAX_NAME_LENGTH)
    (hmsg : req.body.message = some m) :
    (jsLength m = 501 →
      (createOp st req).1.status = 400 ∧ (createOp st req).2.store = st.store) ∧
    (jsLength m = 500 → (createOp st req).1.status = 201) := by
  have h2s : strFalsy (some s) = false := by simp [strFalsy, hsne]
  have h3s : strFalsy (some r) = false := by simp [strFalsy, hrne]
  have h4s : ¬ MAX_NAME_LENGTH < jsLength s := Nat.not_lt.mpr hslen
  have h5s : ¬ MAX_NAME_LENGTH < jsLength r := Nat.not_lt.mpr hrlen
  constructor
  · intro h501
    have hmne : m ≠ "" := by
      intro he
      rw [he] at h501
      exact absurd h501 (by decide)
    have hguard : strFalsy req.body.message = false ∧
        jsLength (req.body.message.getD "") > MAX_MESSAGE_LENGTH := by
      rw [hmsg]
      refine ⟨by simp [strFalsy, hmne], ?_⟩
      simp only [Option.getD_some, gt_iff_lt, h501, MAX_MESSAGE_LENGTH]
      omega
    simp [createOp, createHandler, hm, hs, hr, h2s, h3s, h4s, h5s, hguard]
  · intro h500
    have hmlen : jsLength (req.body.message.getD "") ≤ MAX_MESSAGE_LENGTH := by
      rw [hmsg]
      simp only [Option.getD_some, h500, MAX_MESSAGE_LENGTH]
      omega
    rw [createOp_valid st req s r hm hs hr hsne hrne hslen hrlen hmlen]

theorem create_message_length_boundary_witness :
    jsLength msg501 = 501 ∧ jsLength msg500 = 500 ∧
    ((createOp stw req501).1.status = 400 ∧ (createOp stw req501).2.store = stw.store) ∧
    (createOp stw req500).1.status = 201 :=
  ⟨jsLength_replicate 501 'x' (by decide), jsLength_replicate 500 'x' (by decide),
   (create_message_length_boundary stw req501 "A" "B" msg501 rfl rfl rfl
      (by decide) (by decide) (by decide) (by decide) rfl).1
      (jsLength_replicate 501 'x' (by decide)),
   (create_message_length_boundary stw req500 "A" "B" msg500 rfl rfl rfl
      (by decide) (by decide) (by decide) (by decide) rfl).2
      (jsLength_replicate 500 'x' (by decide))⟩

/-- C5: For every get request whose identifier contains a character outside
the allowed `[a-zA-Z0-9_-]` character set (a space or a slash in
particular), the get operation returns status 400 and its outcome is
independent of the store (no lookup is consulted); a missing identifier
also returns 400. -/
theorem get_invalid_or_missing_id_400 (store : Store) (req : GetReq)
    (hm : req.method = "GET") :
    (req.id = none → (getHandler store req).status = 400) ∧
    (∀ i c, req.id = some i → c ∈ i.data → isIdChar c = false →
      (getHandler store req).status = 400 ∧
      ∀ store2 : Store, getHandler store2 req = getHandler store req) := by
  constructor
  · intro hnone
    simp [getHandler, hm, hnone, strFalsy]
  · intro i c hid hc hbad
    by_cases hie : i = ""
    · subst hie
      exact absurd hc (List.not_mem_nil c)
    · have hall : i.data.all isIdChar = false := by
        cases hb : i.data.all isIdChar with
        | false => rfl
        | true => exact absurd (List.all_eq_true.mp hb c hc) (by simp [hbad])
      have hpat : idPattern i = false := by
        unfold idPattern
        rw [hall, Bool.and_false]
      constructor
      · simp [getHandler, hm, hid, strFalsy, hie, hpat]
      · intro store2
        simp [getHandler, hm, hid, strFalsy, hie, hpat]

theorem get_invalid_or_missing_id_400_witness :
    ((getHandler [rowW] { method := "GET", id := none }).status = 400) ∧
    (' ' ∈ ("a b" : String).data ∧ isIdChar ' ' = false ∧
      (getHandler [rowW] { method := "GET", id := some "a b" }).status = 400) ∧
    ('/' ∈ ("a/b" : String).data ∧ isIdChar '/' = false ∧
      (getHandler [rowW] { method := "GET", id := some "a/b" }).status = 400) :=
  ⟨(get_invalid_or_missing_id_400 [rowW] { method := "GET", id := none } rfl).1 rfl,
   ⟨by decide, by decide,
    ((get_invalid_or_missing_id_400 [rowW] { method := "GET", id := some "a b" } rfl).2
      "a b" ' ' rfl (by decide) (by decide)).1⟩,
   ⟨by decide, by decide,
    ((get_invalid_or_missing_id_400 [rowW] { method := "GET", id := some "a/b" } rfl).2
      "a/b" '/' rfl (by decide) (by decide)).1⟩⟩

/-- C6: For every get request with a well-formed identifier that is not the
key of any stored greeting, the get operation returns status 404; for an
identifier that is stored, it returns status 200 with the stored sender,
receiver, message, day_index and created_at fields. -/
theorem get_found_or_not_found (store : Store) (i : String)
    (hwf : idPattern i = true) :
    ((∀ row ∈ store, row.id ≠ i) →
      (getHandler store { method := "GET", id := some i }).status = 404) ∧
    (∀ row, storeLookup store i = some row →
      getHandler store { method := "GET", id := some i } =
        { status := 200, error := none,
          data := some { sender := row.sender, receiver := row.receiver,
                         message := row.message, day_index := row.day_index,
                         created_at := row.created_at } }) := by
  constructor
  · intro hno
    rw [getHandler_not_found hwf (storeLookup_eq_none hno)]
  · intro row hrow
    exact getHandler_found hwf hrow

theorem get_found_or_not_found_witness :
    idPattern "abc" = true ∧ idPattern "zzz" = true ∧
    (getHandler [rowW] { method := "GET", id := some "zzz" }).status = 404 ∧
    getHandler [rowW] { method := "GET", id := some "abc" } =
      { status := 200, error := none,
        data := some { sender := rowW.sender, receiver := rowW.receiver,
                       message := rowW.message, day_index := rowW.day_index,
                       created_at := rowW.created_at } } :=
  ⟨by decide, by decide,
   (get_found_or_not_found [rowW] "zzz" (by decide)).1 (by decide),
   (get_found_or_not_found [rowW] "abc" (by decide)).2 rowW rfl⟩

/-- C7: For every pair of two sequential successful create operations, the
two identifiers returned are distinct.  (Identifier generation is modelled
from the spec: the external `nanoid` generator is a fresh-identifier supply
with the negligible-collision assumption made exact.) -/
theorem sequential_creates_distinct_ids (st : SysState) (req1 req2 : CreateReq)
    (i1 i2 : String)
    (h1 : (createOp st req1).1.id = some i1)
    (h2 : (createOp (createOp st req1).2 req2).1.id = some i2) :
    i1 ≠ i2 := by
  have e1 := (createOp_id_some h1).1
  have e2 := (createOp_id_some h2).1
  have hc : (createOp st req1).2.calls = st.calls + 1 := rfl
  rw [hc] at e2
  rw [e1, e2]
  exact nanoid_ne (by omega)

theorem sequential_creates_distinct_ids_witness :
    (createOp stw reqNames).1.id = some "a" ∧
    (createOp (createOp stw reqNames).2 reqNames).1.id = some "aa" ∧
    ("a" : String) ≠ "aa" :=
  ⟨by decide, by decide,
   sequential_creates_distinct_ids stw reqNames reqNames "a" "aa"
     (by decide) (by decide)⟩

/-- C9: For every HTTP request whose method is not the one the handler
accepts (not POST for create, not GET for get), the handler returns status
405 and performs no store operation: create leaves the store unchanged and
get's outcome is independent of the store. -/
theorem wrong_method_405 (store : Store) (creq : CreateReq) (greq : GetReq)
    (fresh : String) (now : Nat)
    (hc : creq.method ≠ "POST") (hg : greq.method ≠ "GET") :
    (createHandler store creq fresh now).1.status = 405 ∧
    (createHandler store creq fresh now).2 = store ∧
    (getHandler store greq).status = 405 ∧
    ∀ store2 : Store, getHandler store2 greq = getHandler store greq := by
  refine ⟨?_, ?_, ?_, fun store2 => ?_⟩ <;> simp [createHandler, getHandler, hc, hg]

theorem wrong_method_405_witness :
    creqWrong.method ≠ "POST" ∧ greqWrong.method ≠ "GET" ∧
    (createHandler [] creqWrong "a" 0).1.status = 405 ∧
    (createHandler [] creqWrong "a" 0).2 = [] ∧
    (getHandler [rowW] greqWrong).status = 405 :=
  ⟨by decide, by decide,
   (wrong_method_405 [] creqWrong greqWrong "a" 0 (by decide) (by decide)).1,
   (wrong_method_405 [] creqWrong greqWrong "a" 0 (by decide) (by decide)).2.1,
   (wrong_method_405 [rowW] creqWrong greqWrong "a" 0 (by decide) (by decide)).2.2.1⟩

/-- C1 as stated is refuted: create stores the TRIMMED sender, so get
returns "Al" for the supplied sender "Al " — not the same value. -/
theorem create_get_roundtrip_counterexample :
    reqTrail.body.sender = some "Al " ∧
    (createOp stw reqTrail).1.status = 201 ∧
    (getHandler (createOp stw reqTrail).2.store
        { method := "GET", id := (createOp stw reqTrail).1.id.getD "" }).data =
      some { sender := "Al", receiver := "Bea", message := "hi",
             day_index := 0, created_at := 0 } ∧
    ("Al" : String) ≠ "Al " := by decide

/-- C1 (amended): for every valid create input, create-then-get returns the
trimmed sender, receiver and message values (message defaulting to the
empty string when absent or empty); these equal the supplied values exactly
when those carry no leading or trailing whitespace. -/
theorem create_get_roundtrip_trimmed (st : SysState) (req : CreateReq)
    (s r : String)
    (hm : req.method = "POST") (hs : req.body.sender = some s)
    (hr : req.body.receiver = some r) (hsne : s ≠ "") (hrne : r ≠ "")
    (hslen : jsLength s ≤ MAX_NAME_LENGTH) (hrlen : jsLength r ≤ MAX_NAME_LENGTH)
    (hmlen : jsLength (req.body.message.getD "") ≤ MAX_MESSAGE_LENGTH)
    (hfresh : ∀ row ∈ st.store, row.id ≠ nanoid st.calls) :
    ∃ i, (createOp st req).1.status = 201 ∧ (createOp st req).1.id = some i ∧
      (getHandler (createOp st req).2.store { method := "GET", id := some i }).status = 200 ∧
      (getHandler (createOp st req).2.store { method := "GET", id := some i }).data =
        some { sender := jsTrim s, receiver := jsTrim r,
               message := if strFalsy req.body.message then ""
                          else jsTrim (req.body.message.getD ""),
               day_index := req.body.day_index.getD 0,
               created_at := st.clock } := by
  have hval := createOp_valid st req s r hm hs hr hsne hrne hslen hrlen hmlen
  have hstore : (createOp st req).2.store = st.store ++
      [{ id := nanoid st.calls, sender := jsTrim s, receiver := jsTrim r,
         message := if strFalsy req.body.message then ""
                    else jsTrim (req.body.message.getD ""),
         day_index := req.body.day_index.getD 0, created_at := st.clock }] := by
    rw [hval]
  have hlook : storeLookup (createOp st req).2.store (nanoid st.calls) =
      some { id := nanoid st.calls, sender := jsTrim s, receiver := jsTrim r,
             message := if strFalsy req.body.message then ""
                        else jsTrim (req.body.message.getD ""),
             day_index := req.body.day_index.getD 0, created_at := st.clock } := by
    rw [hstore]
    exact storeLookup_append_fresh st.store _ hfresh
  refine ⟨nanoid st.calls, by rw [hval], by rw [hval], ?_, ?_⟩
  · rw [getHandler_found (idPattern_nanoid st.calls) hlook]
  · rw [getHandler_found (idPattern_nanoid st.calls) hlook]

theorem create_get_roundtrip_trimmed_witness :
    reqTrail.body.sender = some "Al " ∧
    (∃ i, (createOp stw reqTrail).1.status = 201 ∧
      (createOp stw reqTrail).1.id = some i ∧
      (getHandler (createOp stw reqTrail).2.store { method := "GET", id := some i }).status = 200 ∧
      (getHandler (createOp stw reqTrail).2.store { method := "GET", id := some i }).data =
        some { sender := jsTrim "Al ", receiver := jsTrim "Bea",
               message := if strFalsy reqTrail.body.message then ""
                          else jsTrim (reqTrail.body.message.getD ""),
               day_index := reqTrail.body.day_index.getD 0,
               created_at := stw.clock }) :=
  ⟨rfl, create_get_roundtrip_trimmed stw reqTrail "Al " "Bea" rfl rfl rfl
    (by decide) (by decide) (by decide) (by decide) (by decide)
    (fun row h => absurd h (List.not_mem_nil row))⟩

/-- C2 as stated is refuted: the sender " " (a single space) passes the
validation, and the persisted row's sender trims to the empty string. -/
theorem create_trim_invariant_counterexample :
    reqBlank.body.sender = some " " ∧
    (createOp stw reqBlank).1.status = 201 ∧
    ((createOp stw reqBlank).2.store.any fun row => jsTrim row.sender == "") = true := by
  decide

/-- C2 (amended): for every input accepted by create's validation whose
sender and receiver each contain at least one non-whitespace character, the
persisted row's sender and receiver do not trim to the empty string. -/
theorem create_accepted_row_trim_nonempty (st : SysState) (req : CreateReq)
    (hsw : ∃ c ∈ (req.body.sender.getD "").data, isJsWhitespace c = false)
    (hrw : ∃ c ∈ (req.body.receiver.getD "").data, isJsWhitespace c = false)
    (hacc : (createOp st req).1.status = 201) :
    ∃ row, (createOp st req).2.store = st.store ++ [row] ∧
      jsTrim row.sender ≠ "" ∧ jsTrim row.receiver ≠ "" := by
  obtain ⟨-, -, -, -, hstore⟩ := createOp_success_inversion st req hacc
  refine ⟨_, hstore, ?_, ?_⟩
  · show jsTrim (jsTrim (req.body.sender.getD "")) ≠ ""
    obtain ⟨c, hc, hw⟩ := hsw
    rw [jsTrim_idem]
    exact jsTrim_ne_empty hc hw
  · show jsTrim (jsTrim (req.body.receiver.getD "")) ≠ ""
    obtain ⟨c, hc, hw⟩ := hrw
    rw [jsTrim_idem]
    exact jsTrim_ne_empty hc hw

theorem create_accepted_row_trim_nonempty_witness :
    (createOp stw reqNames).1.status = 201 ∧
    (∃ row, (createOp stw reqNames).2.store = stw.store ++ [row] ∧
      jsTrim row.sender ≠ "" ∧ jsTrim row.receiver ≠ "") :=
  ⟨by decide,
   create_accepted_row_trim_nonempty stw reqNames
     ⟨'A', by decide, by decide⟩ ⟨'B', by decide, by decide⟩ (by decide)⟩

/-- C8 as stated is refuted: with an identifier present and the fetch
failing, the loader does NOT show the creation form (it was hidden and
stays hidden; the page keeps its default content). -/
theorem loader_fetch_fail_counterexample :
    fetchGreeting FetchOutcome.networkError = none ∧
    (loaderInit (some "abc") FetchOutcome.networkError).formVisible ≠ true := by
  decide

/-- C8 (amended): if the URL's identifier parameter is absent (or empty),
the loader shows the creation form; if an identifier is present but the
fetch fails (network error, non-404 API error, or not-found), the loader
keeps the creation form hidden and populates nothing, leaving the page's
default content. -/
theorem loader_init_form_visibility (idParam : Option String)
    (outcome : FetchOutcome) :
    (strFalsy idParam = true →
      loaderInit idParam outcome = { formVisible := true, populated := none }) ∧
    (strFalsy idParam = false → fetchGreeting outcome = none →
      loaderInit idParam outcome = { formVisible := false, populated := none }) := by
  constructor
  · intro h
    simp [loaderInit, h]
  · intro h hf
    simp [loaderInit, h, hf]

theorem loader_init_form_visibility_witness :
    strFalsy (none : Option String) = true ∧
    loaderInit none FetchOutcome.networkError =
      { formVisible := true, populated := none } ∧
    strFalsy (some "abc") = false ∧
    fetchGreeting FetchOutcome.networkError = none ∧
    loaderInit (some "abc") FetchOutcome.networkError =
      { formVisible := false, populated := none } :=
  ⟨rfl, (loader_init_form_visibility none FetchOutcome.networkError).1 rfl,
   by decide, rfl,
   (loader_init_form_visibility (some "abc") FetchOutcome.networkError).2
     (by decide) rfl⟩

/-- C10: For every accepted create request, an absent message is stored as
the empty string and an absent day_index as 0; the subsequent get returns
that (possibly empty) message and numeric day_index. -/
theorem create_defaults_absent_fields (st : SysState) (req : CreateReq)
    (s r : String)
    (hm : req.method = "POST") (hs : req.body.sender = some s)
    (hr : req.body.receiver = some r) (hsne : s ≠ "") (hrne : r ≠ "")
    (hslen : jsLength s ≤ MAX_NAME_LENGTH) (hrlen : jsLength r ≤ MAX_NAME_LENGTH)
    (hmsg : req.body.message = none) (hday : req.body.day_index = none)
    (hfresh : ∀ row ∈ st.store, row.id ≠ nanoid st.calls) :
    ∃ i row, (createOp st req).1.id = some i ∧
      (createOp st req).2.store = st.store ++ [row] ∧
      row.message = "" ∧ row.day_index = 0 ∧
      (getHandler (createOp st req).2.store { method := "GET", id := some i }).data =
        some { sender := row.sender, receiver := row.receiver, message := "",
               day_index := 0, created_at := row.created_at } := by
  have hmlen : jsLength (req.body.message.getD "") ≤ MAX_MESSAGE_LENGTH := by
    rw [hmsg]
    decide
  have hval := createOp_valid st req s r hm hs hr hsne hrne hslen hrlen hmlen
  simp only [hmsg, hday, strFalsy, if_true, Option.getD_none] at hval
  have hstore : (createOp st req).2.store = st.store ++
      [{ id := nanoid st.calls, sender := jsTrim s, receiver := jsTrim r,
         message := "", day_index := 0, created_at := st.clock }] := by
    rw [hval]
  have hlook : storeLookup (createOp st req).2.store (nanoid st.calls) =
      some { id := nanoid st.calls, sender := jsTrim s, receiver := jsTrim r,
             message := "", day_index := 0, created_at := st.clock } := by
    rw [hstore]
    exact storeLookup_append_fresh st.store _ hfresh
  refine ⟨nanoid st.calls,
    { id := nanoid st.calls, sender := jsTrim s, receiver := jsTrim r,
      message := "", day_index := 0, created_at := st.clock },
    by rw [hval], hstore, rfl, rfl, ?_⟩
  rw [getHandler_found (idPattern_nanoid st.calls) hlook]

theorem create_defaults_absent_fields_witness :
    reqNames.body.message = none ∧ reqNames.body.day_index = none ∧
    (∃ i row, (createOp stw reqNames).1.id = some i ∧
      (createOp stw reqNames).2.store = stw.store ++ [row] ∧
      row.message = "" ∧ row.day_index = 0 ∧
      (getHandler (createOp stw reqNames).2.store { method := "GET", id := some i }).data =
        some { sender := row.sender, receiver := row.receiver, message := "",
               day_index := 0, created_at := row.created_at }) :=
  ⟨rfl, rfl,
   create_defaults_absent_fields stw reqNames "A" "B" rfl rfl rfl
     (by decide) (by decide) (by decide) (by decide) rfl rfl
     (fun row h => absurd h (List.not_mem_nil row))⟩

end Valentines
